import Mathlib

/-!
Verification development for the tldraw-ai repository.

The development shallowly embeds the agent pipeline of the repository:

* the API route (`buildPrompt`, `extractJsonObject`, `validatePlan`, `POST`);
* the client-side action layer in `src/app/_tldraw/agent/agentActions.ts`
  (`getCanvasStateForAgent`, `ensureShapeId`, `getNormalizedAnchorFromPoint`,
  `applyAgentActions`).

JavaScript runtime values are modelled by the inductive type `JValue`
(numbers as rationals).  External collaborators are modelled explicitly:

* `JSON.parse` is a parameter `parse : String → Option JValue`
  (`none` = the parse throws a SyntaxError);
* `JSON.stringify` is a parameter `stringify : List JValue → String`;
* the `cursor-agent` subprocess is a parameter
  `proc : String → Except String ProcResult` mapping the prompt to either a
  thrown invocation error or an exit code / stdout / stderr triple;
* tldraw's geometry engine is the oracle field `pageBoundsFn` of the
  editor state, and `createShapeId` / `toRichText` are modelled below.
-/

/-- JSON-like JavaScript runtime values (numbers as rationals;
`undefined` is represented by `Option.none` at use sites). -/
inductive JValue where
  | null
  | bool (b : Bool)
  | num (n : ℚ)
  | str (s : String)
  | arr (elems : List JValue)
  | obj (fields : List (String × JValue))

/-- `isObject` from the API route: non-null, `typeof === "object"` and
not an array. -/
def isObj : JValue → Bool
  | .obj _ => true
  | _ => false

/-- `Array.isArray`. -/
def isArr : JValue → Bool
  | .arr _ => true
  | _ => false

/-- `typeof v === "string"`. -/
def isStr : JValue → Bool
  | .str _ => true
  | _ => false

/-- JavaScript truthiness of a JSON value (used for `!body` and for the
`action.patch.props &&` guard). -/
def jsTruthy : JValue → Bool
  | .null => false
  | .bool b => b
  | .num n => n != 0
  | .str s => s != ""
  | .arr _ => true
  | .obj _ => true

/-- `typeof v === "object"` (true for objects, arrays and `null`). -/
def typeofIsObject : JValue → Bool
  | .obj _ => true
  | .arr _ => true
  | .null => true
  | _ => false

/-- JavaScript property access `v[key]`: `none` models `undefined`. -/
def getField (v : JValue) (key : String) : Option JValue :=
  match v with
  | .obj fields => (fields.find? (fun f => f.1 == key)).map (·.2)
  | _ => none

/-! ## The plan validator (API route, `validatePlan`) -/

/-- One binding check from the `create_shape` arrow case of `validatePlan`
(error strings follow the source, quotes elided). -/
def validateBinding (b : JValue) : Except String Unit :=
  if ¬ isObj b then .error "Invalid binding in create_shape.shape.bindings"
  else
    match getField b "terminal" with
    | some (.str t) =>
      if t ≠ "start" ∧ t ≠ "end" then .error "binding.terminal must be start or end"
      else
        match getField b "toId" with
        | some (.str _) => .ok ()
        | _ => .error "binding.toId must be a string"
    | _ => .error "binding.terminal must be start or end"

/-- The `for (const b of action.shape.bindings)` loop of `validatePlan`. -/
def validateBindings : List JValue → Except String Unit
  | [] => .ok ()
  | b :: rest => do
    validateBinding b
    validateBindings rest

/-- The `create_shape` case of `validatePlan`: the shape must be an object
with a string `kind`; for arrows a non-nullish `bindings` must be an array
of valid bindings.  No check on the value of `kind` itself. -/
def validateCreateShape (action : JValue) : Except String Unit :=
  match getField action "shape" with
  | some shape =>
    if ¬ (isObj shape) then .error "create_shape.shape is invalid"
    else
      match getField shape "kind" with
      | some (.str k) =>
        if k = "arrow" then
          match getField shape "bindings" with
          | none => .ok ()
          | some .null => .ok ()
          | some (.arr bs) => validateBindings bs
          | some _ => .error "create_shape.shape.bindings must be an array"
        else .ok ()
      | _ => .error "create_shape.shape is invalid"
  | none => .error "create_shape.shape is invalid"

/-- The body of the `for (const action of plan.actions)` loop of
`validatePlan`. -/
def validateAction (action : JValue) : Except String Unit :=
  if ¬ isObj action then .error "Invalid action in actions array"
  else
    match getField action "_type" with
    | some (.str t) =>
      if t = "create_shape" then validateCreateShape action
      else if t = "update_shape" then
        match getField action "id" with
        | some (.str _) =>
          match getField action "patch" with
          | some p => if isObj p then .ok () else .error "update_shape is invalid"
          | none => .error "update_shape is invalid"
        | _ => .error "update_shape is invalid"
      else if t = "delete_shape" then
        match getField action "id" with
        | some (.str _) => .ok ()
        | _ => .error "delete_shape is invalid"
      else if t = "select" then
        match getField action "ids" with
        | some (.arr ids) =>
          if ids.all isStr then .ok () else .error "select.ids is invalid"
        | _ => .error "select.ids is invalid"
      else .error ("Unknown action type: " ++ t)
    | _ => .error "Invalid action in actions array"

/-- The action loop of `validatePlan`, first error wins. -/
def validateActions : List JValue → Except String Unit
  | [] => .ok ()
  | a :: rest => do
    validateAction a
    validateActions rest

/-- `validatePlan`: the plan must be an object whose `actions` is an array
and whose `notes` is a string; each action is checked by `validateAction`.
On success the plan value itself is returned (the TS cast). -/
def validatePlan (plan : JValue) : Except String JValue :=
  if ¬ isObj plan then .error "Plan is not an object"
  else
    match getField plan "actions" with
    | some (.arr actions) =>
      match getField plan "notes" with
      | some (.str _) => do
        validateActions actions
        pure plan
      | _ => .error "Plan.notes must be a string"
    | _ => .error "Plan.actions must be an array"

/-- Models JavaScript `String.prototype.trim`: strip leading and trailing
whitespace (executable by structural recursion). -/
def jsTrim (s : String) : String :=
  String.mk
    (((s.toList.dropWhile Char.isWhitespace).reverse.dropWhile
      Char.isWhitespace).reverse)

/-! ## JSON extraction (API route, `extractJsonObject`) -/

/-- `trimmed.indexOf(c)` restricted to found/not-found. -/
def firstIdxOf (cs : List Char) (c : Char) : Option Nat :=
  cs.findIdx? (· = c)

/-- `trimmed.lastIndexOf(c)` restricted to found/not-found. -/
def lastIdxOf (cs : List Char) (c : Char) : Option Nat :=
  match cs.reverse.findIdx? (· = c) with
  | some i => some (cs.length - 1 - i)
  | none => none

/-- `extractJsonObject`: trim; empty input yields `null` (not an error);
otherwise try `JSON.parse` on the whole text, then on the substring from the
first `\x7b` to the last `\x7d`; a failing slice parse models the propagated
SyntaxError; otherwise throw `Could not parse JSON from output`. -/
def extractJsonObject (parse : String → Option JValue) (text : String) :
    Except String JValue :=
  let trimmed := (jsTrim text)
  if trimmed = "" then .ok .null
  else
    match parse trimmed with
    | some v => .ok v
    | none =>
      let cs := trimmed.toList
      match firstIdxOf cs '{', lastIdxOf cs '}' with
      | some start, some stop =>
        if start < stop then
          let slice := String.mk ((cs.drop start).take (stop + 1 - start))
          match parse slice with
          | some v => .ok v
          | none => .error "SyntaxError: JSON.parse"
        else .error "Could not parse JSON from output"
      | _, _ => .error "Could not parse JSON from output"

/-! ## The POST handler (API route) -/

/-- `MAX_SHAPES_FOR_AGENT` from `src/app/_constants/agent.ts`. -/
def MAX_SHAPES_FOR_AGENT : Nat := 300

/-- The `shapes.slice(0, 200)` of `buildPrompt`. -/
def shapesForPrompt (shapes : List JValue) : List JValue :=
  shapes.take 200

/-- The `shapesText` local of `buildPrompt`:
`shapes.length ? JSON.stringify(shapes.slice(0, 200), null, 2) : "[]"`. -/
def shapesText (stringify : List JValue → String) (shapes : List JValue) :
    String :=
  if shapes.length ≠ 0 then stringify (shapesForPrompt shapes) else "[]"

/-- `buildPrompt`: the template string of the route (braces written \x7b/\x7d),
with the user message, the serialized shapes and the optional extra
instructions interpolated. -/
def buildPrompt (stringify : List JValue → String) (message : String)
    (shapes : List JValue) (extraInstructions : Option String) : String :=
  "You are an assistant that plans edits to a tldraw canvas.\n\n" ++
  "Return ONLY valid JSON (no markdown, no commentary).\n\n" ++
  "Schema (strict):\n\x7b\n  \"actions\": [\n" ++
  "    \x7b\"_type\":\"create_shape\",\"shape\":\x7b\"kind\":\"geo\",...\x7d\x7d,\n" ++
  "    \x7b\"_type\":\"create_shape\",\"shape\":\x7b\"kind\":\"text\",...\x7d\x7d,\n" ++
  "    \x7b\"_type\":\"create_shape\",\"shape\":\x7b\"kind\":\"arrow\",...\x7d\x7d,\n" ++
  "    \x7b\"_type\":\"update_shape\",\"id\":string,\"patch\":\x7b...\x7d\x7d,\n" ++
  "    \x7b\"_type\":\"delete_shape\",\"id\":string\x7d,\n" ++
  "    \x7b\"_type\":\"select\",\"ids\":string[]\x7d\n  ],\n  \"notes\": string\n\x7d\n\n" ++
  "Rules:\n- Use existing shape ids from CANVAS_STATE when updating/deleting/selecting.\n" ++
  "- If you create multiple shapes that reference each other (e.g. arrows bound to boxes), provide stable ids via shape.id so bindings can refer to them.\n" ++
  "- Prefer small numbers of actions.\n" ++
  "- If the request is ambiguous, return an empty actions array and explain in notes.\n\n" ++
  "USER_INSTRUCTIONS:\n" ++ message ++ "\n\n" ++
  "CANVAS_STATE (array of shapes):\n" ++ shapesText stringify shapes ++ "\n\n" ++
  (match extraInstructions with
   | some extra => "EXTRA_INSTRUCTIONS:\n" ++ extra ++ "\n"
   | none => "")

/-- Result of a completed `cursor-agent` subprocess run (`$...nothrow()`). -/
structure ProcResult where
  exitCode : Int
  stdout : String
  stderr : String

/-- An HTTP response produced by `NextResponse.json(body, \x7bstatus\x7d)`. -/
structure HttpResponse where
  status : Nat
  body : JValue

/-- The `body.message` read of `POST`: the string value of the `message`
field, if any. -/
def messageOf (body : JValue) : Option String :=
  match getField body "message" with
  | some (.str s) => some s
  | _ => none

/-- The `body.shapes` normalization of `POST`:
`Array.isArray(body.shapes) ? body.shapes.slice(0, MAX_SHAPES_FOR_AGENT) : []`. -/
def postShapes (body : JValue) : List JValue :=
  match getField body "shapes" with
  | some (.arr l) => l.take MAX_SHAPES_FOR_AGENT
  | _ => []

/-- The `body.extraInstructions` read of `POST` (string or absent). -/
def extraInstructionsOf (body : JValue) : Option String :=
  match getField body "extraInstructions" with
  | some (.str s) => some s
  | _ => none

/-- The `POST` handler of the API route.  `reqBody` is the result of
`req.json()` (`none` = the body was not valid JSON); `proc` maps the built
prompt to the subprocess outcome (`Except.error` = the invocation threw). -/
def POST (stringify : List JValue → String) (parse : String → Option JValue)
    (reqBody : Option JValue) (proc : String → Except String ProcResult) :
    HttpResponse :=
  match reqBody with
  | none => ⟨400, .obj [("error", .str "Invalid JSON body")]⟩
  | some body =>
    if ¬ jsTruthy body then
      ⟨400, .obj [("error", .str "Missing required field: message (string)")]⟩
    else
      match messageOf body with
      | none =>
        ⟨400, .obj [("error", .str "Missing required field: message (string)")]⟩
      | some msg =>
        if (jsTrim msg) = "" then
          ⟨400, .obj [("error", .str "Missing required field: message (string)")]⟩
        else if msg.length > 20000 then
          ⟨413, .obj [("error", .str "message too long")]⟩
        else
          let prompt :=
            buildPrompt stringify msg (postShapes body) (extraInstructionsOf body)
          match proc prompt with
          | .error e =>
            ⟨500, .obj [("error", .str "Failed to run cursor-agent"),
                        ("detail", .str e)]⟩
          | .ok r =>
            if r.exitCode ≠ 0 then
              ⟨502, .obj [("error", .str "cursor-agent failed"),
                          ("exitCode", .num (r.exitCode : ℚ)),
                          ("stderr", .str r.stderr)]⟩
            else
              match (do
                  let v ← extractJsonObject parse r.stdout
                  validatePlan v : Except String JValue) with
              | .error e =>
                ⟨502, .obj [("error", .str "cursor-agent output was not valid plan JSON"),
                            ("detail", .str e),
                            ("agentStdout", .str r.stdout)]⟩
              | .ok plan =>
                ⟨200, .obj [("actions", (getField plan "actions").getD .null),
                            ("notes", (getField plan "notes").getD .null)]⟩

/-! ## Editor model (external tldraw editor, as used by `agentActions.ts`) -/

/-- A page-bounds rectangle (`editor.getShapePageBounds`). -/
structure Bounds where
  x : ℚ
  y : ℚ
  w : ℚ
  h : ℚ

/-- A shape record of the document: id, type tag, position, props. -/
structure ShapeRec where
  id : String
  stype : String
  x : ℚ
  y : ℚ
  props : JValue

/-- An arrow binding record (`TLArrowBinding`, type "arrow"). -/
structure BindingRec where
  fromId : String
  toId : String
  terminal : String
  normalizedAnchor : ℚ × ℚ
  isExact : Bool
  isPrecise : Bool
deriving DecidableEq

/-- The editor document state visible to `agentActions.ts`.  The geometry
engine of tldraw is an oracle `pageBoundsFn`; `nextFresh` feeds the
argument-less `createShapeId()` with fresh ids. -/
structure EditorState where
  shapes : List ShapeRec
  bindings : List BindingRec
  selection : List String
  pageBoundsFn : String → Option Bounds
  nextFresh : Nat

/-- `editor.getShape(id)`. -/
def getShape (st : EditorState) (id : String) : Option ShapeRec :=
  st.shapes.find? (fun s => s.id == id)

/-- `editor.createShape(...)`: the new record is appended to the document. -/
def createShapeRec (st : EditorState) (s : ShapeRec) : EditorState :=
  { st with shapes := st.shapes ++ [s] }

/-- `editor.createBinding(...)`. -/
def createBinding (st : EditorState) (b : BindingRec) : EditorState :=
  { st with bindings := st.bindings ++ [b] }

/-- `editor.deleteShapes([id])` (binding cascade of tldraw is out of scope
for the claims and not modelled). -/
def deleteShape (st : EditorState) (id : String) : EditorState :=
  { st with shapes := st.shapes.filter (fun s => s.id != id) }

/-- `editor.setSelectedShapes(ids)`. -/
def setSelectedShapes (st : EditorState) (ids : List String) : EditorState :=
  { st with selection := ids }

/-- `editor.selectNone()`. -/
def selectNone (st : EditorState) : EditorState :=
  { st with selection := [] }

/-- `editor.getShapePageBounds(id)`: the external geometry oracle. -/
def getShapePageBounds (st : EditorState) (id : String) : Option Bounds :=
  st.pageBoundsFn id

/-- Models tldraw's `createShapeId(id)` with an explicit argument:
the id prefixed with `shape:`. -/
def createShapeIdFrom (id : String) : String :=
  "shape:" ++ id

/-- Models tldraw's argument-less `createShapeId()`: a fresh unique id. -/
def freshShapeId (n : Nat) : String :=
  "shape:fresh-" ++ toString n

/-- Models tldraw's `toRichText` (external): an opaque injective encoding of
the label text. -/
def toRichText (s : String) : JValue :=
  .obj [("richText", .str s)]

/-- `toShapeId` from `agentActions.ts`: a bare cast, the string unchanged. -/
def toShapeId (id : String) : String :=
  id

/-- `ensureShapeId` from `agentActions.ts`. -/
def ensureShapeId (id : String) : String :=
  if id.startsWith "shape:" then id else createShapeIdFrom id

/-- `clamp` from `agentActions.ts`. -/
def clamp (n : ℚ) : ℚ :=
  min 1 (max 0 n)

/-- `getNormalizedAnchorFromPoint` from `agentActions.ts`. -/
def getNormalizedAnchorFromPoint (st : EditorState) (targetId : String)
    (pagePoint : ℚ × ℚ) : ℚ × ℚ :=
  match getShapePageBounds st targetId with
  | none => (1/2, 1/2)
  | some bounds =>
    if bounds.w = 0 ∨ bounds.h = 0 then (1/2, 1/2)
    else (clamp ((pagePoint.1 - bounds.x) / bounds.w),
          clamp ((pagePoint.2 - bounds.y) / bounds.h))

/-! ## Typed agent actions (the `AgentAction` union of `agentActions.ts`) -/

/-- `AgentArrowBinding`. -/
structure AgentArrowBinding where
  terminal : String
  toId : String
  normalizedAnchor : Option (ℚ × ℚ)
  isExact : Option Bool
  isPrecise : Option Bool

/-- The `kind: "geo"` variant of `create_shape.shape`. -/
structure GeoShapeSpec where
  id : Option String
  geo : String
  x : ℚ
  y : ℚ
  w : Option ℚ
  h : Option ℚ
  label : Option String
  color : Option String

/-- The `kind: "text"` variant of `create_shape.shape`. -/
structure TextShapeSpec where
  id : Option String
  x : ℚ
  y : ℚ
  w : Option ℚ
  text : String
  color : Option String

/-- The `kind: "arrow"` variant of `create_shape.shape` (`endp` stands for
the source field named `end`, a reserved word here). -/
structure ArrowShapeSpec where
  id : Option String
  start : ℚ × ℚ
  endp : ℚ × ℚ
  color : Option String
  label : Option String
  bindings : Option (List AgentArrowBinding)

/-- `create_shape.shape`, tagged by `kind`. -/
inductive ShapeSpec where
  | geo (s : GeoShapeSpec)
  | text (s : TextShapeSpec)
  | arrow (s : ArrowShapeSpec)

/-- The `patch` of `update_shape`. -/
structure UpdatePatch where
  x : Option ℚ
  y : Option ℚ
  props : Option JValue

/-- The `AgentAction` tagged union. -/
inductive AgentAction where
  | create_shape (shape : ShapeSpec)
  | update_shape (id : String) (patch : UpdatePatch)
  | delete_shape (id : String)
  | select (ids : List String)

/-! ## The action applier (`applyAgentActions` and friends) -/

/-- The props record built for a created geo shape. -/
def geoProps (s : GeoShapeSpec) : JValue :=
  .obj [("geo", .str s.geo),
        ("w", .num (s.w.getD 220)),
        ("h", .num (s.h.getD 140)),
        ("color", .str (s.color.getD "black")),
        ("fill", .str "none"),
        ("dash", .str "draw"),
        ("size", .str "m"),
        ("font", .str "draw"),
        ("align", .str "middle"),
        ("verticalAlign", .str "middle"),
        ("richText", toRichText (s.label.getD "")),
        ("labelColor", .str (s.color.getD "black"))]

/-- The props record built for a created text shape. -/
def textProps (s : TextShapeSpec) : JValue :=
  .obj [("w", .num (s.w.getD 320)),
        ("autoSize", .bool true),
        ("color", .str (s.color.getD "black")),
        ("font", .str "draw"),
        ("size", .str "m"),
        ("scale", .num 1),
        ("textAlign", .str "start"),
        ("richText", toRichText s.text)]

/-- The props record built for a created arrow shape: local `start` is
`(0, 0)` and local `end` is the requested end minus the requested start. -/
def arrowProps (s : ArrowShapeSpec) : JValue :=
  .obj [("start", .obj [("x", .num 0), ("y", .num 0)]),
        ("end", .obj [("x", .num (s.endp.1 - s.start.1)),
                      ("y", .num (s.endp.2 - s.start.2))]),
        ("arrowheadStart", .str "none"),
        ("arrowheadEnd", .str "arrow"),
        ("color", .str (s.color.getD "black")),
        ("dash", .str "draw"),
        ("size", .str "m"),
        ("font", .str "draw"),
        ("labelColor", .str (s.color.getD "black")),
        ("richText", toRichText (s.label.getD ""))]

/-- `action.shape.id ? ensureShapeId(action.shape.id) : createShapeId()`
(the empty string is falsy in JS, hence also gets a fresh id). -/
def resolveCreateId (st : EditorState) (id : Option String) :
    String × EditorState :=
  match id with
  | some i =>
    if i = "" then (freshShapeId st.nextFresh, { st with nextFresh := st.nextFresh + 1 })
    else (ensureShapeId i, st)
  | none => (freshShapeId st.nextFresh, { st with nextFresh := st.nextFresh + 1 })

/-- The `for (const binding of bindings)` loop of the arrow branch of
`applyAgentActions`: skip missing targets and agent-prompt targets; the
anchor is the supplied one, or else is computed from the raw start/end
point against the target bounds. -/
def applyArrowBindings (arrowId : String) (start endp : ℚ × ℚ) :
    EditorState → List AgentArrowBinding → EditorState
  | st, [] => st
  | st, binding :: rest =>
    let targetId := ensureShapeId binding.toId
    let st' :=
      match getShape st targetId with
      | none => st
      | some target =>
        if target.stype = "agent-prompt" then st
        else
          let normalizedAnchor :=
            binding.normalizedAnchor.getD
              (getNormalizedAnchorFromPoint st targetId
                (if binding.terminal = "start" then start else endp))
          createBinding st
            { fromId := arrowId, toId := targetId,
              terminal := binding.terminal,
              normalizedAnchor := normalizedAnchor,
              isExact := binding.isExact.getD false,
              isPrecise := binding.isPrecise.getD true }
    applyArrowBindings arrowId start endp st' rest

/-- The `editor.updateShape(...)` call of the `update_shape` branch:
`x`/`y` are overwritten when the patch carries numbers, `props` when the
patch carries a truthy object-typed value. -/
def updateShape (st : EditorState) (id : String) (patch : UpdatePatch) :
    EditorState :=
  { st with
    shapes := st.shapes.map fun s =>
      if s.id == id then
        { s with
          x := patch.x.getD s.x,
          y := patch.y.getD s.y,
          props :=
            match patch.props with
            | some p => if jsTruthy p ∧ typeofIsObject p then p else s.props
            | none => s.props }
      else s }

/-- One iteration of the action loop of `applyAgentActions`. -/
def applyAction (st : EditorState) (action : AgentAction) : EditorState :=
  match action with
  | .create_shape (.geo s) =>
    let (id, st₁) := resolveCreateId st s.id
    createShapeRec st₁ ⟨id, "geo", s.x, s.y, geoProps s⟩
  | .create_shape (.text s) =>
    let (id, st₁) := resolveCreateId st s.id
    createShapeRec st₁ ⟨id, "text", s.x, s.y, textProps s⟩
  | .create_shape (.arrow s) =>
    let (id, st₁) := resolveCreateId st s.id
    let st₂ := createShapeRec st₁ ⟨id, "arrow", s.start.1, s.start.2, arrowProps s⟩
    applyArrowBindings id s.start s.endp st₂ (s.bindings.getD [])
  | .update_shape id patch =>
    let shapeId := toShapeId id
    match getShape st shapeId with
    | none => st
    | some existing => updateShape st existing.id patch
  | .delete_shape id =>
    let shapeId := toShapeId id
    match getShape st shapeId with
    | none => st
    | some existing => deleteShape st existing.id
  | .select ids =>
    let ids' := (ids.map toShapeId).filter (fun i => (getShape st i).isSome)
    if ids'.length = 0 then selectNone st else setSelectedShapes st ids'

/-- `applyAgentActions`: replay the validated actions in order against the
document. -/
def applyAgentActions (st : EditorState) (actions : List AgentAction) :
    EditorState :=
  actions.foldl applyAction st

/-! ## Canvas snapshots (`getCanvasStateForAgent`) -/

/-- `editor.getBindingsFromShape(id, "arrow")`: all binding records in the
model are arrow bindings. -/
def getBindingsFromShape (st : EditorState) (id : String) : List BindingRec :=
  st.bindings.filter (fun b => b.fromId == id)

/-- The binding summary mapped over `getBindingsFromShape` in
`getCanvasStateForAgent`. -/
def bindingSummary (b : BindingRec) : JValue :=
  .obj [("terminal", .str b.terminal),
        ("toId", .str b.toId),
        ("normalizedAnchor", .obj [("x", .num b.normalizedAnchor.1),
                                   ("y", .num b.normalizedAnchor.2)]),
        ("isExact", .bool b.isExact),
        ("isPrecise", .bool b.isPrecise)]

/-- The per-shape summary lambda of `getCanvasStateForAgent`: the base
object, plus a `bindings` array for arrow shapes. -/
def shapeSummary (st : EditorState) (s : ShapeRec) : JValue :=
  let base := [("id", .str s.id),
               ("type", .str s.stype),
               ("x", .num s.x),
               ("y", .num s.y),
               ("props", if isObj s.props then s.props else .obj [])]
  if s.stype ≠ "arrow" then .obj base
  else .obj (base ++
    [("bindings", .arr ((getBindingsFromShape st s.id).map bindingSummary))])

/-- `getCanvasStateForAgent`: filter out excluded types, cap at
`MAX_SHAPES_FOR_AGENT`, summarize each shape. -/
def getCanvasStateForAgent (st : EditorState) (excludeTypes : List String) :
    List JValue :=
  let shapes := st.shapes.filter (fun s => ¬ excludeTypes.contains s.stype)
  (shapes.take MAX_SHAPES_FOR_AGENT).map (shapeSummary st)

/-- The field names of a JSON object value. -/
def objKeys : JValue → List String
  | .obj fields => fields.map (·.1)
  | _ => []

/-! ## Derived predicates and concrete fixtures -/

/-- The tag of an action value: its `_type` string, if the action is an
object carrying one. -/
def actionTypeOf (a : JValue) : Option String :=
  if isObj a then
    match getField a "_type" with
    | some (.str t) => some t
    | _ => none
  else none

/-- The four action types the validator knows. -/
def knownActionTypes : List String :=
  ["create_shape", "update_shape", "delete_shape", "select"]

/-- A point of the plane with both coordinates in `[0, 1]`. -/
def anchorInUnit (p : ℚ × ℚ) : Prop :=
  0 ≤ p.1 ∧ p.1 ≤ 1 ∧ 0 ≤ p.2 ∧ p.2 ≤ 1

instance (p : ℚ × ℚ) : Decidable (anchorInUnit p) := by
  unfold anchorInUnit; infer_instance

/-- The normalized anchors supplied verbatim by an action (arrow
`create_shape` bindings that carry a `normalizedAnchor`). -/
def suppliedAnchors : AgentAction → List (ℚ × ℚ)
  | .create_shape (.arrow s) => (s.bindings.getD []).filterMap (·.normalizedAnchor)
  | _ => []

/-- A request body that passes all input checks of `POST`: truthy, with a
string `message` that is nonempty after trimming and within the length cap. -/
def goodRequestBody (body : JValue) (m : String) : Prop :=
  jsTruthy body = true ∧ messageOf body = some m ∧ (jsTrim m) ≠ "" ∧
    ¬ (m.length > 20000)

/-- The prompt `POST` hands to the subprocess for a given body. -/
def promptOf (stringify : List JValue → String) (body : JValue) (m : String) :
    String :=
  buildPrompt stringify m (postShapes body) (extraInstructionsOf body)

/-- An editor document with no shapes. -/
def emptyEditor : EditorState :=
  ⟨[], [], [], fun _ => none, 0⟩

/-- A geo shape fixture. -/
def boxShape : ShapeRec :=
  ⟨"shape:box", "geo", 0, 0, .obj []⟩

/-- An editor document holding one geo shape. -/
def boxEditor : EditorState :=
  ⟨[boxShape], [], [], fun _ => none, 0⟩

/-- An editor document holding one arrow shape. -/
def arrowEditor : EditorState :=
  ⟨[⟨"shape:a1", "arrow", 1, 2, .obj []⟩], [], [], fun _ => none, 0⟩

/-- An arrow `create_shape` action whose binding supplies a
`normalizedAnchor` far outside the unit square. -/
def outOfRangeAnchorAction : AgentAction :=
  .create_shape (.arrow ⟨none, (0, 0), (1, 1), none, none,
    some [⟨"start", "box", some (2, 3), none, none⟩]⟩)

/-- An arrow `create_shape` action whose binding supplies no anchor. -/
def computedAnchorAction : AgentAction :=
  .create_shape (.arrow ⟨none, (0, 0), (1, 1), none, none,
    some [⟨"start", "box", none, none, none⟩]⟩)

/-- A `create_shape` action whose shape kind is not geo/text/arrow. -/
def bananaAction : JValue :=
  .obj [("_type", .str "create_shape"), ("shape", .obj [("kind", .str "banana")])]

/-- An arrow `create_shape` action value whose binding anchor lies outside
`[0,1] × [0,1]`. -/
def outOfRangeAnchorActionValue : JValue :=
  .obj [("_type", .str "create_shape"),
        ("shape", .obj [("kind", .str "arrow"),
          ("bindings", .arr [.obj [("terminal", .str "start"),
                                   ("toId", .str "b"),
                                   ("normalizedAnchor",
                                      .obj [("x", .num 5), ("y", .num (-3))])]])])]

/-- A plan carrying the two malformed-but-unchecked actions above. -/
def uncheckedMalformationsPlan : JValue :=
  .obj [("actions", .arr [bananaAction, outOfRangeAnchorActionValue]),
        ("notes", .str "")]

/-- An `update_shape` action value whose patch is a string, not an object. -/
def badPatchAction : JValue :=
  .obj [("_type", .str "update_shape"), ("id", .str "s1"),
        ("patch", .str "nope")]

/-- An action value with an unknown `_type`. -/
def unknownTypeAction : JValue :=
  .obj [("_type", .str "frobnicate")]

/-- A plan whose single action has an unknown `_type`. -/
def unknownTypePlan : JValue :=
  .obj [("actions", .arr [unknownTypeAction]), ("notes", .str "")]

/-- A list of 201 distinct shape summaries. -/
def manyShapes : List JValue :=
  (List.range 201).map (fun i => JValue.num i)

/-- A request body carrying 201 shapes. -/
def manyShapesBody : JValue :=
  .obj [("message", .str "hi"), ("shapes", .arr manyShapes)]

/-! ## Helper lemmas -/

theorem applyAgentActions_singleton (st : EditorState) (a : AgentAction) :
    applyAgentActions st [a] = applyAction st a :=
  rfl

theorem resolveCreateId_shapes (st : EditorState) (i : Option String) :
    ((resolveCreateId st i).2).shapes = st.shapes := by
  cases i with
  | none => rfl
  | some s =>
    simp only [resolveCreateId]
    split <;> rfl

theorem resolveCreateId_bindings (st : EditorState) (i : Option String) :
    ((resolveCreateId st i).2).bindings = st.bindings := by
  cases i with
  | none => rfl
  | some s =>
    simp only [resolveCreateId]
    split <;> rfl

theorem applyArrowBindings_shapes (arrowId : String) (start endp : ℚ × ℚ)
    (bs : List AgentArrowBinding) (st : EditorState) :
    (applyArrowBindings arrowId start endp st bs).shapes = st.shapes := by
  induction bs generalizing st with
  | nil => rfl
  | cons b rest ih =>
    simp only [applyArrowBindings]
    rw [ih]
    cases getShape st (ensureShapeId b.toId) with
    | none => rfl
    | some target =>
      by_cases ht : target.stype = "agent-prompt" <;> simp [ht, createBinding]

theorem applyAction_create_arrow (st : EditorState) (s : ArrowShapeSpec) :
    applyAction st (.create_shape (.arrow s)) =
      applyArrowBindings (resolveCreateId st s.id).1 s.start s.endp
        (createShapeRec (resolveCreateId st s.id).2
          ⟨(resolveCreateId st s.id).1, "arrow", s.start.1, s.start.2,
            arrowProps s⟩)
        (s.bindings.getD []) :=
  rfl

/-- C6: a `create_shape` action of kind arrow creates a shape positioned at
the requested start point, with local start terminal `(0, 0)` and local end
terminal `end - start`, so that the absolute start and end points of the
arrow equal the requested points. -/
theorem C6_arrow_creation (st : EditorState) (s : ArrowShapeSpec) :
    ∃ rec : ShapeRec,
      (applyAgentActions st [.create_shape (.arrow s)]).shapes =
        st.shapes ++ [rec] ∧
      rec.stype = "arrow" ∧
      rec.x = s.start.1 ∧ rec.y = s.start.2 ∧
      getField rec.props "start" =
        some (.obj [("x", .num 0), ("y", .num 0)]) ∧
      getField rec.props "end" =
        some (.obj [("x", .num (s.endp.1 - s.start.1)),
                    ("y", .num (s.endp.2 - s.start.2))]) ∧
      rec.x + (s.endp.1 - s.start.1) = s.endp.1 ∧
      rec.y + (s.endp.2 - s.start.2) = s.endp.2 := by
  refine ⟨⟨(resolveCreateId st s.id).1, "arrow", s.start.1, s.start.2,
           arrowProps s⟩, ?_, rfl, rfl, rfl, rfl, rfl, by ring, by ring⟩
  rw [applyAgentActions_singleton, applyAction_create_arrow,
      applyArrowBindings_shapes]
  simp [createShapeRec, resolveCreateId_shapes]

/-- C9: `update_shape` and `delete_shape` actions whose id does not resolve
to an existing shape are skipped without error, leaving the document
unchanged; a `select` action keeps exactly the listed ids that exist, and
the selection is cleared when none of them exists. -/
theorem C9_missing_ids (st : EditorState) (id : String) (patch : UpdatePatch)
    (ids : List String) (h : getShape st (toShapeId id) = none) :
    applyAgentActions st [.update_shape id patch] = st ∧
    applyAgentActions st [.delete_shape id] = st ∧
    (applyAgentActions st [.select ids]).selection =
      (ids.map toShapeId).filter (fun i => (getShape st i).isSome) ∧
    (applyAgentActions st [.select ids]).shapes = st.shapes ∧
    ((ids.map toShapeId).filter (fun i => (getShape st i).isSome) = [] →
      (applyAgentActions st [.select ids]).selection = []) := by
  refine ⟨?_, ?_, ?_, ?_, ?_⟩
  · rw [applyAgentActions_singleton]
    simp only [applyAction, h]
  · rw [applyAgentActions_singleton]
    simp only [applyAction, h]
  · rw [applyAgentActions_singleton]
    simp only [applyAction]
    split
    · next hlen =>
      rw [List.length_eq_zero] at hlen
      rw [hlen]
      rfl
    · rfl
  · rw [applyAgentActions_singleton]
    simp only [applyAction]
    split <;> rfl
  · intro hnil
    rw [applyAgentActions_singleton]
    simp only [applyAction, hnil]
    rfl

/-- Witness for C9 at a concrete input. -/
theorem C9_missing_ids_witness :
    applyAgentActions emptyEditor [.update_shape "nope" ⟨none, none, none⟩] =
      emptyEditor ∧
    applyAgentActions emptyEditor [.delete_shape "nope"] = emptyEditor ∧
    (applyAgentActions emptyEditor [.select ["x"]]).selection =
      (["x"].map toShapeId).filter (fun i => (getShape emptyEditor i).isSome) ∧
    (applyAgentActions emptyEditor [.select ["x"]]).shapes =
      emptyEditor.shapes ∧
    ((["x"].map toShapeId).filter (fun i => (getShape emptyEditor i).isSome) = [] →
      (applyAgentActions emptyEditor [.select ["x"]]).selection = []) :=
  C9_missing_ids emptyEditor "nope" ⟨none, none, none⟩ ["x"] rfl

theorem find?_append_none {α : Type} (p : α → Bool) (l₁ l₂ : List α)
    (h : l₁.find? p = none) : (l₁ ++ l₂).find? p = l₂.find? p := by
  induction l₁ with
  | nil => rfl
  | cons a t ih =>
    cases hp : p a with
    | true => simp [List.find?, hp] at h
    | false =>
      simp only [List.find?, hp] at h
      simpa only [List.cons_append, List.find?, hp] using ih h

theorem find?_append_found {α : Type} (p : α → Bool) (l₁ l₂ : List α)
    (x : α) (h : l₁.find? p = some x) : (l₁ ++ l₂).find? p = some x := by
  induction l₁ with
  | nil => simp [List.find?] at h
  | cons a t ih =>
    cases hp : p a with
    | true =>
      simp only [List.find?, hp] at h
      simp only [List.cons_append, List.find?, hp]
      exact h
    | false =>
      simp only [List.find?, hp] at h
      simpa only [List.cons_append, List.find?, hp] using ih h

theorem getShape_createShapeRec_found (st : EditorState) (r x : ShapeRec)
    (id : String) (h : getShape st id = some x) :
    getShape (createShapeRec st r) id = some x := by
  unfold getShape createShapeRec at *
  simp only
  exact find?_append_found _ _ _ _ h

theorem shape_colon_append_ne (s : String) : ("shape:" ++ s) ≠ s := by
  intro h
  have h2 := congrArg String.length h
  rw [String.length_append] at h2
  have h6 : "shape:".length = 6 := rfl
  rw [h6] at h2
  omega

theorem ensureShapeId_not_prefixed (s : String)
    (h : s.startsWith "shape:" = false) : ensureShapeId s = "shape:" ++ s := by
  simp [ensureShapeId, h, createShapeIdFrom]

theorem getShape_createShapeRec_miss (st : EditorState) (r : ShapeRec)
    (id : String) (h : getShape st id = none) (hne : r.id ≠ id) :
    getShape (createShapeRec st r) id = none := by
  unfold getShape createShapeRec at *
  simp only
  rw [find?_append_none _ _ _ h]
  simp [List.find?, beq_eq_false_iff_ne.mpr hne]

theorem getShape_createShapeRec_hit (st : EditorState) (r : ShapeRec)
    (h : getShape st r.id = none) :
    getShape (createShapeRec st r) r.id = some r := by
  unfold getShape createShapeRec at *
  simp only
  rw [find?_append_none _ _ _ h]
  simp [List.find?]

/-- C10 (as claimed): agent-supplied ids are resolved asymmetrically.
A geo shape created under a stable id `sid` (not starting with `shape:`)
gets document id `shape: ++ sid`; a later `update_shape` or `delete_shape`
naming `sid` casts it directly, misses, and is skipped; an arrow binding
whose `toId` is `sid` normalizes through `ensureShapeId` and resolves to the
created shape. -/
theorem C10_id_resolution (st : EditorState) (sid : String) (g : GeoShapeSpec)
    (patch : UpdatePatch) (hpre : sid.startsWith "shape:" = false)
    (hne : sid ≠ "") (h1 : getShape st sid = none)
    (h2 : getShape st ("shape:" ++ sid) = none) (hg : g.id = some sid) :
    (applyAgentActions st [.create_shape (.geo g)]).shapes =
      st.shapes ++ [⟨"shape:" ++ sid, "geo", g.x, g.y, geoProps g⟩] ∧
    applyAgentActions (applyAgentActions st [.create_shape (.geo g)])
      [.update_shape sid patch] =
      applyAgentActions st [.create_shape (.geo g)] ∧
    applyAgentActions (applyAgentActions st [.create_shape (.geo g)])
      [.delete_shape sid] =
      applyAgentActions st [.create_shape (.geo g)] ∧
    ∀ (bterm : String) (banch : Option (ℚ × ℚ)) (bex bpr : Option Bool)
      (p q : ℚ × ℚ),
      (applyAgentActions (applyAgentActions st [.create_shape (.geo g)])
        [.create_shape (.arrow ⟨none, p, q, none, none,
          some [⟨bterm, sid, banch, bex, bpr⟩]⟩)]).bindings =
      (applyAgentActions st [.create_shape (.geo g)]).bindings ++
        [⟨freshShapeId (applyAgentActions st [.create_shape (.geo g)]).nextFresh,
          "shape:" ++ sid, bterm,
          banch.getD (getNormalizedAnchorFromPoint st ("shape:" ++ sid)
            (if bterm = "start" then p else q)),
          bex.getD false, bpr.getD true⟩] := by
  have hens : ensureShapeId sid = "shape:" ++ sid :=
    ensureShapeId_not_prefixed sid hpre
  have hres : resolveCreateId st (some sid) = (ensureShapeId sid, st) := by
    simp [resolveCreateId, hne]
  have hrec : applyAgentActions st [.create_shape (.geo g)] =
      createShapeRec st ⟨"shape:" ++ sid, "geo", g.x, g.y, geoProps g⟩ := by
    rw [applyAgentActions_singleton]
    show createShapeRec (resolveCreateId st g.id).2
        ⟨(resolveCreateId st g.id).1, "geo", g.x, g.y, geoProps g⟩ = _
    rw [hg, hres, hens]
  have hmiss : getShape (createShapeRec st
      ⟨"shape:" ++ sid, "geo", g.x, g.y, geoProps g⟩) sid = none :=
    getShape_createShapeRec_miss st _ sid h1 (shape_colon_append_ne sid)
  have hhit : getShape (createShapeRec st
      ⟨"shape:" ++ sid, "geo", g.x, g.y, geoProps g⟩) ("shape:" ++ sid) =
      some ⟨"shape:" ++ sid, "geo", g.x, g.y, geoProps g⟩ :=
    getShape_createShapeRec_hit st _ h2
  refine ⟨by rw [hrec]; rfl, ?_, ?_, ?_⟩
  · rw [hrec, applyAgentActions_singleton]
    simp only [applyAction, toShapeId, hmiss]
  · rw [hrec, applyAgentActions_singleton]
    simp only [applyAction, toShapeId, hmiss]
  · intro bterm banch bex bpr p q
    rw [hrec, applyAgentActions_singleton, applyAction_create_arrow]
    simp only [resolveCreateId]
    have hgs : getShape (createShapeRec
        { createShapeRec st ⟨"shape:" ++ sid, "geo", g.x, g.y, geoProps g⟩ with
          nextFresh := (createShapeRec st
            ⟨"shape:" ++ sid, "geo", g.x, g.y, geoProps g⟩).nextFresh + 1 }
        ⟨freshShapeId (createShapeRec st
            ⟨"shape:" ++ sid, "geo", g.x, g.y, geoProps g⟩).nextFresh,
          "arrow", p.1, p.2,
          arrowProps ⟨none, p, q, none, none,
            some [⟨bterm, sid, banch, bex, bpr⟩]⟩⟩) ("shape:" ++ sid) =
        some ⟨"shape:" ++ sid, "geo", g.x, g.y, geoProps g⟩ :=
      getShape_createShapeRec_found _ _ _ _ hhit
    simp only [applyArrowBindings, hens, hgs]
    simp only [createBinding, createShapeRec]
    rfl

/-- Witness for C10 at a concrete input. -/
theorem C10_id_resolution_witness :
    (applyAgentActions emptyEditor [.create_shape (.geo
      ⟨some "box1", "rectangle", 0, 0, none, none, none, none⟩)]).shapes =
      emptyEditor.shapes ++ [⟨"shape:" ++ "box1", "geo", 0, 0,
        geoProps ⟨some "box1", "rectangle", 0, 0, none, none, none, none⟩⟩] ∧
    applyAgentActions (applyAgentActions emptyEditor [.create_shape (.geo
        ⟨some "box1", "rectangle", 0, 0, none, none, none, none⟩)])
      [.update_shape "box1" ⟨some 5, none, none⟩] =
      applyAgentActions emptyEditor [.create_shape (.geo
        ⟨some "box1", "rectangle", 0, 0, none, none, none, none⟩)] :=
  let r := C10_id_resolution emptyEditor "box1"
    ⟨some "box1", "rectangle", 0, 0, none, none, none, none⟩
    ⟨some 5, none, none⟩ (by decide) (by decide) rfl rfl rfl
  ⟨r.1, r.2.1⟩

theorem clamp_nonneg (n : ℚ) : 0 ≤ clamp n :=
  le_min (by norm_num) (le_max_left 0 n)

theorem clamp_le_one (n : ℚ) : clamp n ≤ 1 :=
  min_le_left 1 _

theorem getNormalizedAnchorFromPoint_inUnit (st : EditorState)
    (targetId : String) (p : ℚ × ℚ) :
    anchorInUnit (getNormalizedAnchorFromPoint st targetId p) := by
  unfold getNormalizedAnchorFromPoint
  cases getShapePageBounds st targetId with
  | none =>
    show anchorInUnit ((1:ℚ)/2, (1:ℚ)/2)
    exact ⟨by norm_num, by norm_num, by norm_num, by norm_num⟩
  | some bo =>
    show anchorInUnit (if bo.w = 0 ∨ bo.h = 0 then ((1:ℚ)/2, (1:ℚ)/2)
      else (clamp ((p.1 - bo.x) / bo.w), clamp ((p.2 - bo.y) / bo.h)))
    split
    · exact ⟨by norm_num, by norm_num, by norm_num, by norm_num⟩
    · exact ⟨clamp_nonneg _, clamp_le_one _, clamp_nonneg _, clamp_le_one _⟩

theorem applyArrowBindings_bindings_mem (arrowId : String)
    (start endp : ℚ × ℚ) (bs : List AgentArrowBinding) (st : EditorState)
    (b : BindingRec)
    (hb : b ∈ (applyArrowBindings arrowId start endp st bs).bindings) :
    b ∈ st.bindings ∨ anchorInUnit b.normalizedAnchor ∨
      b.normalizedAnchor ∈ bs.filterMap (·.normalizedAnchor) := by
  induction bs generalizing st with
  | nil => exact Or.inl hb
  | cons spec rest ih =>
    simp only [applyArrowBindings] at hb
    rcases ih _ hb with h | h | h
    · -- `b` came from the state after processing the head binding spec
      split at h
      · exact Or.inl h
      · split at h
        · exact Or.inl h
        · simp only [createBinding, List.mem_append, List.mem_singleton] at h
          rcases h with h | h
          · exact Or.inl h
          · subst h
            cases hspec : spec.normalizedAnchor with
            | none =>
              refine Or.inr (Or.inl ?_)
              simp only [hspec, Option.getD]
              exact getNormalizedAnchorFromPoint_inUnit _ _ _
            | some a =>
              refine Or.inr (Or.inr ?_)
              simp only [hspec, Option.getD]
              exact List.mem_filterMap.mpr ⟨spec, List.mem_cons_self _ _, hspec⟩
    · exact Or.inr (Or.inl h)
    · refine Or.inr (Or.inr ?_)
      rcases List.mem_filterMap.mp h with ⟨x, hx, hxa⟩
      exact List.mem_filterMap.mpr ⟨x, List.mem_cons_of_mem _ hx, hxa⟩

theorem applyAction_bindings_mem (st : EditorState) (a : AgentAction)
    (b : BindingRec) (hb : b ∈ (applyAction st a).bindings) :
    b ∈ st.bindings ∨ anchorInUnit b.normalizedAnchor ∨
      b.normalizedAnchor ∈ suppliedAnchors a := by
  cases a with
  | create_shape spec =>
    cases spec with
    | geo s =>
      simp only [applyAction, createShapeRec] at hb
      rw [show ((resolveCreateId st s.id).2).bindings = st.bindings from
        resolveCreateId_bindings st s.id] at hb
      exact Or.inl hb
    | text s =>
      simp only [applyAction, createShapeRec] at hb
      rw [show ((resolveCreateId st s.id).2).bindings = st.bindings from
        resolveCreateId_bindings st s.id] at hb
      exact Or.inl hb
    | arrow s =>
      rw [applyAction_create_arrow] at hb
      rcases applyArrowBindings_bindings_mem _ _ _ _ _ _ hb with h | h | h
      · simp only [createShapeRec] at h
        rw [show ((resolveCreateId st s.id).2).bindings = st.bindings from
          resolveCreateId_bindings st s.id] at h
        exact Or.inl h
      · exact Or.inr (Or.inl h)
      · exact Or.inr (Or.inr h)
  | update_shape id patch =>
    simp only [applyAction] at hb
    cases hg : getShape st (toShapeId id) with
    | none => rw [hg] at hb; exact Or.inl hb
    | some existing =>
      rw [hg] at hb
      simp only [updateShape] at hb
      exact Or.inl hb
  | delete_shape id =>
    simp only [applyAction] at hb
    cases hg : getShape st (toShapeId id) with
    | none => rw [hg] at hb; exact Or.inl hb
    | some existing =>
      rw [hg] at hb
      simp only [deleteShape] at hb
      exact Or.inl hb
  | select ids =>
    simp only [applyAction] at hb
    split at hb
    · exact Or.inl hb
    · exact Or.inl hb

/-- C4 (amended): every binding `applyAgentActions` adds either has both
anchor coordinates in `[0, 1]` (the computed case: the anchor is derived
from the raw start/end point against the target bounds and clamped, or
defaults to `(1/2, 1/2)`), or carries verbatim a `normalizedAnchor`
supplied by some action — supplied anchors are not range-checked. -/
theorem C4_anchor_invariant (st : EditorState) (actions : List AgentAction)
    (b : BindingRec) (hb : b ∈ (applyAgentActions st actions).bindings) :
    b ∈ st.bindings ∨ anchorInUnit b.normalizedAnchor ∨
      ∃ a ∈ actions, b.normalizedAnchor ∈ suppliedAnchors a := by
  induction actions generalizing st with
  | nil => exact Or.inl hb
  | cons a rest ih =>
    rcases ih (applyAction st a) hb with h | h | ⟨x, hx, hxa⟩
    · rcases applyAction_bindings_mem st a b h with h' | h' | h'
      · exact Or.inl h'
      · exact Or.inr (Or.inl h')
      · exact Or.inr (Or.inr ⟨a, List.mem_cons_self _ _, h'⟩)
    · exact Or.inr (Or.inl h)
    · exact Or.inr (Or.inr ⟨x, List.mem_cons_of_mem _ hx, hxa⟩)

/-- C4 counterexample: a binding action supplying `normalizedAnchor (2, 3)`
yields a created binding whose anchor lies outside `[0,1] × [0,1]`,
refuting the claim that every created binding has its anchor in range. -/
theorem C4_counterexample :
    (applyAgentActions boxEditor [outOfRangeAnchorAction]).bindings.map
      (·.normalizedAnchor) = [((2 : ℚ), (3 : ℚ))] ∧
    ¬ anchorInUnit (2, 3) :=
  ⟨rfl, by decide⟩

/-- Witness for C4 at a concrete input. -/
theorem C4_anchor_invariant_witness :
    (⟨"shape:fresh-0", "shape:box", "start", (1/2, 1/2), false, true⟩ :
        BindingRec) ∈
      (applyAgentActions boxEditor [computedAnchorAction]).bindings ∧
    ((⟨"shape:fresh-0", "shape:box", "start", (1/2, 1/2), false, true⟩ :
        BindingRec) ∈ boxEditor.bindings ∨
     anchorInUnit ((1 : ℚ)/2, (1 : ℚ)/2) ∨
     ∃ a ∈ [computedAnchorAction],
       ((1 : ℚ)/2, (1 : ℚ)/2) ∈ suppliedAnchors a) := by
  have hbind : (applyAgentActions boxEditor [computedAnchorAction]).bindings =
      [⟨"shape:fresh-0", "shape:box", "start", (1/2, 1/2), false, true⟩] := rfl
  have hmem : (⟨"shape:fresh-0", "shape:box", "start", (1/2, 1/2), false, true⟩ :
      BindingRec) ∈ (applyAgentActions boxEditor [computedAnchorAction]).bindings := by
    rw [hbind]
    exact List.mem_singleton.mpr rfl
  exact ⟨hmem, C4_anchor_invariant boxEditor [computedAnchorAction] _ hmem⟩

/-- C5 counterexample: with 201 shapes in the request, the serialized list
has only 200 entries, not the first `MAX_SHAPES_FOR_AGENT = 300` as claimed:
`buildPrompt` re-slices the already-capped list to 200. -/
theorem C5_counterexample :
    (shapesForPrompt (postShapes manyShapesBody)).length = 200 ∧
    (manyShapes.take MAX_SHAPES_FOR_AGENT).length = 201 ∧
    shapesForPrompt (postShapes manyShapesBody) ≠
      manyShapes.take MAX_SHAPES_FOR_AGENT := by
  have h1 : (shapesForPrompt (postShapes manyShapesBody)).length = 200 := rfl
  have h2 : (manyShapes.take MAX_SHAPES_FOR_AGENT).length = 201 := rfl
  refine ⟨h1, h2, fun heq => ?_⟩
  have h3 := congrArg List.length heq
  rw [h1, h2] at h3
  exact absurd h3 (by decide)

/-- C5 (amended): the shapes serialized into the prompt are exactly the
first 200 entries of the request's shapes array — `POST` slices to
`MAX_SHAPES_FOR_AGENT = 300` but `buildPrompt` re-slices to 200 — and the
empty list when `shapes` is absent or not an array; no surviving entry is
altered. -/
theorem C5_prompt_shapes (body : JValue) (l : List JValue)
    (h : getField body "shapes" = some (.arr l)) :
    postShapes body = l.take MAX_SHAPES_FOR_AGENT ∧
    shapesForPrompt (postShapes body) = l.take 200 ∧
    (∀ stringify : List JValue → String,
      shapesText stringify (postShapes body) =
        if (postShapes body).length ≠ 0 then stringify (l.take 200) else "[]") ∧
    (∀ b' : JValue,
      (∀ l' : List JValue, getField b' "shapes" ≠ some (.arr l')) →
      postShapes b' = []) := by
  have h1 : postShapes body = l.take MAX_SHAPES_FOR_AGENT := by
    unfold postShapes
    rw [h]
  have h2 : shapesForPrompt (postShapes body) = l.take 200 := by
    rw [h1]
    unfold shapesForPrompt MAX_SHAPES_FOR_AGENT
    rw [List.take_take]
    norm_num
  refine ⟨h1, h2, fun stringify => ?_, fun b' hb' => ?_⟩
  · unfold shapesText
    rw [h2]
  · unfold postShapes
    cases hg : getField b' "shapes" with
    | none => rfl
    | some v =>
      cases v with
      | arr l' => exact absurd hg (hb' l')
      | null => rfl
      | bool b => rfl
      | num n => rfl
      | str s => rfl
      | obj fs => rfl

/-- Witness for C5 at a concrete input. -/
theorem C5_prompt_shapes_witness :
    shapesForPrompt (postShapes manyShapesBody) = manyShapes.take 200 :=
  (C5_prompt_shapes manyShapesBody manyShapes rfl).2.1

/-- C7 counterexample: the summary of an arrow shape carries a sixth field
`bindings`, refuting the claim that every summary consists of exactly
id, type, x, y and the property map. -/
theorem C7_counterexample :
    (getCanvasStateForAgent arrowEditor []).map objKeys =
      [["id", "type", "x", "y", "props", "bindings"]] ∧
    (getCanvasStateForAgent arrowEditor []).map objKeys ≠
      [["id", "type", "x", "y", "props"]] :=
  ⟨rfl, by decide⟩

/-- C7 (amended): summaries of non-arrow shapes consist of exactly the
fields id, type, x, y and the opaque property map (the empty object when
props is not a plain object); arrow summaries additionally carry the
arrow's bindings; the snapshot is a pure read of the document. -/
theorem C7_summary_fields (st : EditorState) (excl : List String) :
    getCanvasStateForAgent st excl =
      ((st.shapes.filter (fun s => ¬ excl.contains s.stype)).take
        MAX_SHAPES_FOR_AGENT).map (shapeSummary st) ∧
    (∀ s : ShapeRec, s.stype ≠ "arrow" →
      objKeys (shapeSummary st s) = ["id", "type", "x", "y", "props"]) ∧
    (∀ s : ShapeRec, s.stype = "arrow" →
      objKeys (shapeSummary st s) =
        ["id", "type", "x", "y", "props", "bindings"]) ∧
    (∀ s : ShapeRec, isObj s.props = true →
      getField (shapeSummary st s) "props" = some s.props) ∧
    (∀ s : ShapeRec, isObj s.props = false →
      getField (shapeSummary st s) "props" = some (.obj [])) := by
  refine ⟨rfl, fun s hs => ?_, fun s hs => ?_, fun s hp => ?_, fun s hp => ?_⟩
  · unfold shapeSummary
    rw [if_pos hs]
    rfl
  · unfold shapeSummary
    rw [if_neg (fun hne => hne hs)]
    rfl
  · unfold shapeSummary
    rw [if_pos hp]
    by_cases harrow : s.stype ≠ "arrow"
    · rw [if_pos harrow]; rfl
    · rw [if_neg harrow]; rfl
  · unfold shapeSummary
    rw [if_neg (show ¬ (isObj s.props = true) by simp [hp])]
    by_cases harrow : s.stype ≠ "arrow"
    · rw [if_pos harrow]; rfl
    · rw [if_neg harrow]; rfl

/-- Witness for C7 at a concrete input. -/
theorem C7_summary_fields_witness :
    objKeys (shapeSummary arrowEditor ⟨"shape:a1", "arrow", 1, 2, .obj []⟩) =
      ["id", "type", "x", "y", "props", "bindings"] :=
  (C7_summary_fields arrowEditor []).2.2.1 ⟨"shape:a1", "arrow", 1, 2, .obj []⟩ rfl

theorem POST_invalid_json (stringify : List JValue → String)
    (parse : String → Option JValue) (proc : String → Except String ProcResult) :
    POST stringify parse none proc =
      ⟨400, .obj [("error", .str "Invalid JSON body")]⟩ :=
  rfl

theorem POST_falsy_body (stringify : List JValue → String)
    (parse : String → Option JValue) (body : JValue)
    (proc : String → Except String ProcResult) (h : jsTruthy body = false) :
    POST stringify parse (some body) proc =
      ⟨400, .obj [("error", .str "Missing required field: message (string)")]⟩ := by
  simp [POST, h]

theorem POST_no_message (stringify : List JValue → String)
    (parse : String → Option JValue) (body : JValue)
    (proc : String → Except String ProcResult) (h : jsTruthy body = true)
    (h2 : messageOf body = none) :
    POST stringify parse (some body) proc =
      ⟨400, .obj [("error", .str "Missing required field: message (string)")]⟩ := by
  simp [POST, h, h2]

theorem POST_blank_message (stringify : List JValue → String)
    (parse : String → Option JValue) (body : JValue) (m : String)
    (proc : String → Except String ProcResult) (h : jsTruthy body = true)
    (h2 : messageOf body = some m) (h3 : (jsTrim m) = "") :
    POST stringify parse (some body) proc =
      ⟨400, .obj [("error", .str "Missing required field: message (string)")]⟩ := by
  simp [POST, h, h2, h3]

theorem POST_long_message (stringify : List JValue → String)
    (parse : String → Option JValue) (body : JValue) (m : String)
    (proc : String → Except String ProcResult) (h : jsTruthy body = true)
    (h2 : messageOf body = some m) (h3 : (jsTrim m) ≠ "")
    (h4 : m.length > 20000) :
    POST stringify parse (some body) proc =
      ⟨413, .obj [("error", .str "message too long")]⟩ := by
  simp [POST, h, h2, h3, h4]

theorem POST_proc_throw (stringify : List JValue → String)
    (parse : String → Option JValue) (body : JValue) (m : String) (e : String)
    (proc : String → Except String ProcResult) (h : jsTruthy body = true)
    (h2 : messageOf body = some m) (h3 : (jsTrim m) ≠ "")
    (h4 : ¬ m.length > 20000)
    (h5 : proc (promptOf stringify body m) = .error e) :
    POST stringify parse (some body) proc =
      ⟨500, .obj [("error", .str "Failed to run cursor-agent"),
                  ("detail", .str e)]⟩ := by
  unfold promptOf at h5
  simp [POST, h, h2, h3, h4, h5]

theorem POST_exit_nonzero (stringify : List JValue → String)
    (parse : String → Option JValue) (body : JValue) (m : String)
    (r : ProcResult) (proc : String → Except String ProcResult)
    (h : jsTruthy body = true) (h2 : messageOf body = some m)
    (h3 : (jsTrim m) ≠ "") (h4 : ¬ m.length > 20000)
    (h5 : proc (promptOf stringify body m) = .ok r) (h6 : r.exitCode ≠ 0) :
    POST stringify parse (some body) proc =
      ⟨502, .obj [("error", .str "cursor-agent failed"),
                  ("exitCode", .num (r.exitCode : ℚ)),
                  ("stderr", .str r.stderr)]⟩ := by
  unfold promptOf at h5
  simp [POST, h, h2, h3, h4, h5, h6]

theorem POST_plan_error (stringify : List JValue → String)
    (parse : String → Option JValue) (body : JValue) (m : String)
    (r : ProcResult) (e : String) (proc : String → Except String ProcResult)
    (h : jsTruthy body = true) (h2 : messageOf body = some m)
    (h3 : (jsTrim m) ≠ "") (h4 : ¬ m.length > 20000)
    (h5 : proc (promptOf stringify body m) = .ok r) (h6 : r.exitCode = 0)
    (h7 : (extractJsonObject parse r.stdout >>= validatePlan) = .error e) :
    POST stringify parse (some body) proc =
      ⟨502, .obj [("error", .str "cursor-agent output was not valid plan JSON"),
                  ("detail", .str e),
                  ("agentStdout", .str r.stdout)]⟩ := by
  unfold promptOf at h5
  simp [POST, h, h2, h3, h4, h5, h6, h7]

theorem POST_plan_ok (stringify : List JValue → String)
    (parse : String → Option JValue) (body : JValue) (m : String)
    (r : ProcResult) (plan : JValue) (proc : String → Except String ProcResult)
    (h : jsTruthy body = true) (h2 : messageOf body = some m)
    (h3 : (jsTrim m) ≠ "") (h4 : ¬ m.length > 20000)
    (h5 : proc (promptOf stringify body m) = .ok r) (h6 : r.exitCode = 0)
    (h7 : (extractJsonObject parse r.stdout >>= validatePlan) = .ok plan) :
    POST stringify parse (some body) proc =
      ⟨200, .obj [("actions", (getField plan "actions").getD .null),
                  ("notes", (getField plan "notes").getD .null)]⟩ := by
  unfold promptOf at h5
  simp [POST, h, h2, h3, h4, h5, h6, h7]

/-- C3: the `POST` handler's status map — 400 for an unparseable body or a
missing/non-string/blank `message`, 413 for a message over 20000
characters, 500 when invoking the subprocess throws, 502 for a nonzero
exit code or output that fails plan extraction/validation, 200 with
`actions`/`notes` otherwise; every non-200 response body carries an
`error` field, and no other status occurs. -/
theorem C3_POST_statuses (stringify : List JValue → String)
    (parse : String → Option JValue) (reqBody : Option JValue)
    (proc : String → Except String ProcResult) :
    (reqBody = none →
      POST stringify parse reqBody proc =
        ⟨400, .obj [("error", .str "Invalid JSON body")]⟩) ∧
    (∀ body, reqBody = some body →
      (jsTruthy body = false ∨ messageOf body = none ∨
        (∃ m, messageOf body = some m ∧ (jsTrim m) = "")) →
      (POST stringify parse reqBody proc).status = 400 ∧
      (objKeys (POST stringify parse reqBody proc).body).head? = some "error") ∧
    (∀ body m, reqBody = some body → jsTruthy body = true →
      messageOf body = some m → (jsTrim m) ≠ "" → m.length > 20000 →
      (POST stringify parse reqBody proc).status = 413 ∧
      (objKeys (POST stringify parse reqBody proc).body).head? = some "error") ∧
    (∀ body m e, reqBody = some body → jsTruthy body = true →
      messageOf body = some m → (jsTrim m) ≠ "" → ¬ m.length > 20000 →
      proc (promptOf stringify body m) = .error e →
      (POST stringify parse reqBody proc).status = 500 ∧
      (objKeys (POST stringify parse reqBody proc).body).head? = some "error") ∧
    (∀ body m r, reqBody = some body → jsTruthy body = true →
      messageOf body = some m → (jsTrim m) ≠ "" → ¬ m.length > 20000 →
      proc (promptOf stringify body m) = .ok r → r.exitCode ≠ 0 →
      (POST stringify parse reqBody proc).status = 502 ∧
      (objKeys (POST stringify parse reqBody proc).body).head? = some "error") ∧
    (∀ body m r e, reqBody = some body → jsTruthy body = true →
      messageOf body = some m → (jsTrim m) ≠ "" → ¬ m.length > 20000 →
      proc (promptOf stringify body m) = .ok r → r.exitCode = 0 →
      (extractJsonObject parse r.stdout >>= validatePlan) = .error e →
      (POST stringify parse reqBody proc).status = 502 ∧
      (objKeys (POST stringify parse reqBody proc).body).head? = some "error") ∧
    (∀ body m r plan, reqBody = some body → jsTruthy body = true →
      messageOf body = some m → (jsTrim m) ≠ "" → ¬ m.length > 20000 →
      proc (promptOf stringify body m) = .ok r → r.exitCode = 0 →
      (extractJsonObject parse r.stdout >>= validatePlan) = .ok plan →
      (POST stringify parse reqBody proc).status = 200 ∧
      objKeys (POST stringify parse reqBody proc).body = ["actions", "notes"]) ∧
    (POST stringify parse reqBody proc).status ∈ [200, 400, 413, 500, 502] := by
  refine ⟨?_, ?_, ?_, ?_, ?_, ?_, ?_, ?_⟩
  · intro h; subst h; exact POST_invalid_json stringify parse proc
  · rintro body rfl (hb | hm | ⟨m, hm, htrim⟩)
    · rw [POST_falsy_body stringify parse body proc hb]; exact ⟨rfl, rfl⟩
    · cases hb : jsTruthy body with
      | false => rw [POST_falsy_body stringify parse body proc hb]; exact ⟨rfl, rfl⟩
      | true =>
        rw [POST_no_message stringify parse body proc hb hm]; exact ⟨rfl, rfl⟩
    · cases hb : jsTruthy body with
      | false => rw [POST_falsy_body stringify parse body proc hb]; exact ⟨rfl, rfl⟩
      | true =>
        rw [POST_blank_message stringify parse body m proc hb hm htrim]
        exact ⟨rfl, rfl⟩
  · rintro body m rfl hb hm htrim hlen
    rw [POST_long_message stringify parse body m proc hb hm htrim hlen]
    exact ⟨rfl, rfl⟩
  · rintro body m e rfl hb hm htrim hlen hp
    rw [POST_proc_throw stringify parse body m e proc hb hm htrim hlen hp]
    exact ⟨rfl, rfl⟩
  · rintro body m r rfl hb hm htrim hlen hp he
    rw [POST_exit_nonzero stringify parse body m r proc hb hm htrim hlen hp he]
    exact ⟨rfl, rfl⟩
  · rintro body m r e rfl hb hm htrim hlen hp he hv
    rw [POST_plan_error stringify parse body m r e proc hb hm htrim hlen hp he hv]
    exact ⟨rfl, rfl⟩
  · rintro body m r plan rfl hb hm htrim hlen hp he hv
    rw [POST_plan_ok stringify parse body m r plan proc hb hm htrim hlen hp he hv]
    exact ⟨rfl, rfl⟩
  · rcases reqBody with _ | body
    · rw [POST_invalid_json]; decide
    · cases hb : jsTruthy body with
      | false => rw [POST_falsy_body stringify parse body proc hb]; decide
      | true =>
        cases hm : messageOf body with
        | none => rw [POST_no_message stringify parse body proc hb hm]; decide
        | some m =>
          by_cases htrim : (jsTrim m) = ""
          · rw [POST_blank_message stringify parse body m proc hb hm htrim]
            decide
          · by_cases hlen : m.length > 20000
            · rw [POST_long_message stringify parse body m proc hb hm htrim hlen]
              decide
            · cases hp : proc (promptOf stringify body m) with
              | error e =>
                rw [POST_proc_throw stringify parse body m e proc hb hm htrim
                  hlen hp]
                show (500 : Nat) ∈ [200, 400, 413, 500, 502]
                decide
              | ok r =>
                by_cases he : r.exitCode = 0
                · cases hv : (extractJsonObject parse r.stdout >>= validatePlan)
                    with
                  | error e =>
                    rw [POST_plan_error stringify parse body m r e proc hb hm
                      htrim hlen hp he hv]
                    show (502 : Nat) ∈ [200, 400, 413, 500, 502]
                    decide
                  | ok plan =>
                    rw [POST_plan_ok stringify parse body m r plan proc hb hm
                      htrim hlen hp he hv]
                    show (200 : Nat) ∈ [200, 400, 413, 500, 502]
                    decide
                · rw [POST_exit_nonzero stringify parse body m r proc hb hm
                    htrim hlen hp he]
                  show (502 : Nat) ∈ [200, 400, 413, 500, 502]
                  decide

/-- Witness for C3 at a concrete input. -/
theorem C3_POST_statuses_witness :
    POST (fun _ => "") (fun _ => none) none (fun _ => .error "boom") =
      ⟨400, .obj [("error", .str "Invalid JSON body")]⟩ :=
  (C3_POST_statuses (fun _ => "") (fun _ => none) none
    (fun _ => .error "boom")).1 rfl

theorem except_bind_ok {α β : Type} (x : α) (f : α → Except String β) :
    ((Except.ok x : Except String α) >>= f) = f x :=
  rfl

theorem except_bind_error {α β : Type} (e : String)
    (f : α → Except String β) :
    ((Except.error e : Except String α) >>= f) = .error e :=
  rfl

theorem validateAction_error_of_bad (a : JValue)
    (hbad : ∀ t, actionTypeOf a = some t → t ∉ knownActionTypes) :
    ∃ e, validateAction a = .error e := by
  unfold validateAction
  by_cases ho : isObj a = true
  · rw [if_neg (by simp [ho])]
    cases hf : getField a "_type" with
    | none => exact ⟨_, rfl⟩
    | some v =>
      cases v with
      | str t =>
        have ht : t ∉ knownActionTypes := by
          refine hbad t ?_
          unfold actionTypeOf
          rw [if_pos ho, hf]
        have h1 : ¬ t = "create_shape" := fun h => ht (by rw [h]; decide)
        have h2 : ¬ t = "update_shape" := fun h => ht (by rw [h]; decide)
        have h3 : ¬ t = "delete_shape" := fun h => ht (by rw [h]; decide)
        have h4 : ¬ t = "select" := fun h => ht (by rw [h]; decide)
        dsimp only
        rw [if_neg h1, if_neg h2, if_neg h3, if_neg h4]
        exact ⟨_, rfl⟩
      | null => exact ⟨_, rfl⟩
      | bool b => exact ⟨_, rfl⟩
      | num n => exact ⟨_, rfl⟩
      | arr l => exact ⟨_, rfl⟩
      | obj fs => exact ⟨_, rfl⟩
  · rw [if_pos (by simp [ho])]
    exact ⟨_, rfl⟩

theorem validateActions_error_of_mem (l : List JValue) (a : JValue)
    (ha : a ∈ l) (he : ∃ e, validateAction a = .error e) :
    ∃ e, validateActions l = .error e := by
  induction l with
  | nil => cases ha
  | cons b rest ih =>
    rcases List.mem_cons.mp ha with rfl | ha'
    · obtain ⟨e, he⟩ := he
      refine ⟨e, ?_⟩
      show (validateAction a >>= fun _ => validateActions rest) = .error e
      rw [he, except_bind_error]
    · cases hb : validateAction b with
      | error e =>
        refine ⟨e, ?_⟩
        show (validateAction b >>= fun _ => validateActions rest) = .error e
        rw [hb, except_bind_error]
      | ok u =>
        obtain ⟨e, he2⟩ := ih ha'
        refine ⟨e, ?_⟩
        show (validateAction b >>= fun _ => validateActions rest) = .error e
        rw [hb, except_bind_ok]
        exact he2

theorem isObj_of_getField_some (v : JValue) (key : String) (x : JValue)
    (h : getField v key = some x) : isObj v = true := by
  cases v <;> first | rfl | simp [getField] at h

theorem validatePlan_error_of_actions (plan : JValue) (l : List JValue)
    (hact : getField plan "actions" = some (.arr l))
    (he : ∃ e, validateActions l = .error e) :
    ∃ e, validatePlan plan = .error e := by
  have hobj : isObj plan = true := isObj_of_getField_some plan "actions" _ hact
  unfold validatePlan
  rw [if_neg (by simp [hobj]), hact]
  cases hn : getField plan "notes" with
  | none => exact ⟨_, rfl⟩
  | some v =>
    cases v with
    | str snotes =>
      obtain ⟨e, he⟩ := he
      refine ⟨e, ?_⟩
      show (validateActions l >>= fun _ => pure plan) = .error e
      rw [he, except_bind_error]
    | null => exact ⟨_, rfl⟩
    | bool b => exact ⟨_, rfl⟩
    | num n => exact ⟨_, rfl⟩
    | arr l2 => exact ⟨_, rfl⟩
    | obj fs => exact ⟨_, rfl⟩

theorem actionTypeOf_fields (a : JValue) (t : String)
    (h : actionTypeOf a = some t) :
    isObj a = true ∧ getField a "_type" = some (.str t) := by
  unfold actionTypeOf at h
  by_cases ho : isObj a = true
  · rw [if_pos ho] at h
    refine ⟨ho, ?_⟩
    cases hf : getField a "_type" with
    | none => rw [hf] at h; cases h
    | some v =>
      rw [hf] at h
      cases v with
      | str t2 => cases h; rfl
      | null => cases h
      | bool b => cases h
      | num n => cases h
      | arr l => cases h
      | obj fs => cases h
  · rw [if_neg ho] at h
    cases h

/-- C2: any plan whose actions array contains an element that is not an
object with a string `_type`, or whose `_type` is not one of the four known
action types, is rejected by `validatePlan` with a descriptive error (the
unknown-type error names the type), and `POST` answers 502 with no actions
in the response. -/
theorem C2_unknown_action_rejected (plan : JValue) (l : List JValue)
    (a : JValue) (hact : getField plan "actions" = some (.arr l)) (ha : a ∈ l)
    (hbad : ∀ t, actionTypeOf a = some t → t ∉ knownActionTypes) :
    (∃ e, validatePlan plan = .error e) ∧
    (∀ t notes, actionTypeOf a = some t →
      validatePlan (.obj [("actions", .arr [a]), ("notes", .str notes)]) =
        .error ("Unknown action type: " ++ t)) ∧
    (∀ stringify parse body m r proc, jsTruthy body = true →
      messageOf body = some m → (jsTrim m) ≠ "" → ¬ m.length > 20000 →
      proc (promptOf stringify body m) = .ok r → r.exitCode = 0 →
      extractJsonObject parse r.stdout = .ok plan →
      (POST stringify parse (some body) proc).status = 502 ∧
      getField (POST stringify parse (some body) proc).body "actions" = none) := by
  have hvp : ∃ e, validatePlan plan = .error e :=
    validatePlan_error_of_actions plan l hact
      (validateActions_error_of_mem l a ha (validateAction_error_of_bad a hbad))
  refine ⟨hvp, fun t notes hat => ?_, ?_⟩
  · obtain ⟨ho, hf⟩ := actionTypeOf_fields a t hat
    have ht := hbad t hat
    have h1 : ¬ t = "create_shape" := fun h => ht (by rw [h]; decide)
    have h2 : ¬ t = "update_shape" := fun h => ht (by rw [h]; decide)
    have h3 : ¬ t = "delete_shape" := fun h => ht (by rw [h]; decide)
    have h4 : ¬ t = "select" := fun h => ht (by rw [h]; decide)
    have hva : validateAction a = .error ("Unknown action type: " ++ t) := by
      unfold validateAction
      rw [if_neg (by simp [ho]), hf]
      dsimp only
      rw [if_neg h1, if_neg h2, if_neg h3, if_neg h4]
    have hvas : validateActions [a] =
        .error ("Unknown action type: " ++ t) := by
      show (validateAction a >>= fun _ => validateActions []) = _
      rw [hva, except_bind_error]
    show (validateActions [a] >>= fun _ =>
      pure (JValue.obj [("actions", JValue.arr [a]),
        ("notes", JValue.str notes)]) : Except String JValue) = _
    rw [hvas, except_bind_error]
  · intro stringify parse body m r proc hb hm htrim hlen hp he hex
    obtain ⟨e, hvpe⟩ := hvp
    have hbind : (extractJsonObject parse r.stdout >>= validatePlan) =
        .error e := by
      rw [hex, except_bind_ok]
      exact hvpe
    rw [POST_plan_error stringify parse body m r e proc hb hm htrim hlen hp
      he hbind]
    exact ⟨rfl, rfl⟩

/-- Witness for C2 at a concrete input. -/
theorem C2_unknown_action_rejected_witness :
    validatePlan (.obj [("actions", .arr [unknownTypeAction]),
        ("notes", .str "")]) =
      .error ("Unknown action type: " ++ "frobnicate") :=
  (C2_unknown_action_rejected unknownTypePlan [unknownTypeAction]
    unknownTypeAction rfl (List.mem_singleton.mpr rfl)
    (by
      intro t ht
      rw [show actionTypeOf unknownTypeAction = some "frobnicate" from rfl] at ht
      cases ht
      decide)).2.1 "frobnicate" "" rfl

/-- C1 counterexample: `validatePlan` accepts a plan containing a
`create_shape` whose `shape.kind` is "banana" (not geo/text/arrow) and an
arrow binding whose `normalizedAnchor` is `(5, -3)`, refuting the claim
that such malformed fields are rejected. -/
theorem C1_counterexample :
    validatePlan uncheckedMalformationsPlan = .ok uncheckedMalformationsPlan :=
  rfl

/-- C1 (amended): `validatePlan` rejects the malformations it checks —
non-object/shapeless `create_shape`, non-array bindings, bindings that are
not objects or have a terminal other than start/end or a non-string `toId`,
`update_shape` whose patch is not an object, non-string ids, non-string
select ids — and any such failure rejects the whole plan and makes `POST`
answer 502 with no actions; but unknown `shape.kind` values, non-numeric
coordinates and out-of-range `normalizedAnchor`s are not checked. -/
theorem C1_checked_malformations :
    (∀ (plan : JValue) (l : List JValue) (a : JValue) (e₀ : String),
      getField plan "actions" = some (.arr l) → a ∈ l →
      validateAction a = .error e₀ → ∃ e, validatePlan plan = .error e) ∧
    (∀ (act : JValue) (i : String) (p : JValue), isObj act = true →
      getField act "_type" = some (.str "update_shape") →
      getField act "id" = some (.str i) → getField act "patch" = some p →
      isObj p = false →
      validateAction act = .error "update_shape is invalid") ∧
    (∀ (b : JValue) (t : String), isObj b = true →
      getField b "terminal" = some (.str t) → t ≠ "start" → t ≠ "end" →
      validateBinding b = .error "binding.terminal must be start or end") ∧
    (∀ (b : JValue), isObj b = true →
      getField b "terminal" = some (.str "start") →
      (getField b "toId" = none ∨
        ∃ v, getField b "toId" = some v ∧ isStr v = false) →
      validateBinding b = .error "binding.toId must be a string") ∧
    (∀ (stringify : List JValue → String) (parse : String → Option JValue)
      (body : JValue) (m : String) (r : ProcResult)
      (proc : String → Except String ProcResult) (plan : JValue) (e : String),
      jsTruthy body = true → messageOf body = some m → (jsTrim m) ≠ "" →
      ¬ m.length > 20000 → proc (promptOf stringify body m) = .ok r →
      r.exitCode = 0 → extractJsonObject parse r.stdout = .ok plan →
      validatePlan plan = .error e →
      (POST stringify parse (some body) proc).status = 502 ∧
      getField (POST stringify parse (some body) proc).body "actions" = none) := by
  refine ⟨?_, ?_, ?_, ?_, ?_⟩
  · intro plan l a e₀ hact ha hva
    exact validatePlan_error_of_actions plan l hact
      (validateActions_error_of_mem l a ha ⟨e₀, hva⟩)
  · intro act i p ho hf hid hp hpobj
    unfold validateAction
    rw [if_neg (by simp [ho]), hf]
    dsimp only
    rw [if_neg (by decide : ¬ ("update_shape" = "create_shape")),
        if_pos rfl, hid]
    dsimp only
    rw [hp]
    dsimp only
    rw [if_neg (by simp [hpobj])]
  · intro b t hb hterm ht1 ht2
    unfold validateBinding
    rw [if_neg (by simp [hb]), hterm]
    dsimp only
    rw [if_pos ⟨ht1, ht2⟩]
  · intro b hb hterm hto
    unfold validateBinding
    rw [if_neg (by simp [hb]), hterm]
    dsimp only
    rw [if_neg (by decide : ¬ (¬ ("start" = "start") ∧ ¬ ("start" = "end")))]
    rcases hto with hto | ⟨v, hto, hvs⟩
    · rw [hto]
    · rw [hto]
      cases v with
      | str s2 => simp [isStr] at hvs
      | null => rfl
      | bool b2 => rfl
      | num n => rfl
      | arr l2 => rfl
      | obj fs => rfl
  · intro stringify parse body m r proc plan e hb hm htrim hlen hp he hex hvpe
    have hbind : (extractJsonObject parse r.stdout >>= validatePlan) =
        .error e := by
      rw [hex, except_bind_ok]
      exact hvpe
    rw [POST_plan_error stringify parse body m r e proc hb hm htrim hlen hp
      he hbind]
    exact ⟨rfl, rfl⟩

/-- Witness for C1 at a concrete input. -/
theorem C1_checked_malformations_witness :
    validateAction badPatchAction = .error "update_shape is invalid" :=
  C1_checked_malformations.2.1 badPatchAction "s1" (.str "nope")
    rfl rfl rfl rfl rfl

/-- C8 counterexample: on empty (after trimming) agent output, extraction
does not fail — `extractJsonObject` returns JSON null — and the request is
rejected only later, when plan validation refuses the null. -/
theorem C8_counterexample :
    extractJsonObject (fun _ => none) "" = .ok .null ∧
    validatePlan .null = .error "Plan is not an object" :=
  ⟨rfl, rfl⟩

/-- C8 (amended): extraction trims the text; empty trimmed text yields JSON
null without an error (plan validation then rejects it); otherwise the
whole trimmed text is parsed, then the substring from the first brace to
the last; a missing or unparseable substring makes extraction fail; on all
of these failing paths, and on the empty path, `POST` answers 502. -/
theorem C8_extraction (parse : String → Option JValue) (text : String) :
    ((jsTrim text) = "" → extractJsonObject parse text = .ok .null) ∧
    (∀ v, (jsTrim text) ≠ "" → parse (jsTrim text) = some v →
      extractJsonObject parse text = .ok v) ∧
    (∀ i j, (jsTrim text) ≠ "" → parse (jsTrim text) = none →
      firstIdxOf (jsTrim text).toList '{' = some i →
      lastIdxOf (jsTrim text).toList '}' = some j → i < j →
      extractJsonObject parse text =
        match parse (String.mk (((jsTrim text).toList.drop i).take (j + 1 - i))) with
        | some v => .ok v
        | none => .error "SyntaxError: JSON.parse") ∧
    ((jsTrim text) ≠ "" → parse (jsTrim text) = none →
      (firstIdxOf (jsTrim text).toList '{' = none ∨
       lastIdxOf (jsTrim text).toList '}' = none ∨
       (∀ i j, firstIdxOf (jsTrim text).toList '{' = some i →
         lastIdxOf (jsTrim text).toList '}' = some j → ¬ i < j)) →
      extractJsonObject parse text = .error "Could not parse JSON from output") ∧
    (∀ stringify body m r proc e, jsTruthy body = true →
      messageOf body = some m → (jsTrim m) ≠ "" → ¬ m.length > 20000 →
      proc (promptOf stringify body m) = .ok r → r.exitCode = 0 →
      extractJsonObject parse r.stdout = .error e →
      (POST stringify parse (some body) proc).status = 502) ∧
    (∀ stringify body m r proc, jsTruthy body = true →
      messageOf body = some m → (jsTrim m) ≠ "" → ¬ m.length > 20000 →
      proc (promptOf stringify body m) = .ok r → r.exitCode = 0 →
      (jsTrim r.stdout) = "" →
      (POST stringify parse (some body) proc).status = 502) := by
  refine ⟨?_, ?_, ?_, ?_, ?_, ?_⟩
  · intro h
    unfold extractJsonObject
    rw [if_pos h]
  · intro v h hp
    unfold extractJsonObject
    rw [if_neg h]
    dsimp only
    rw [hp]
  · intro i j h hp hi hj hij
    unfold extractJsonObject
    rw [if_neg h]
    dsimp only
    rw [hp]
    dsimp only
    rw [hi, hj]
    dsimp only
    rw [if_pos hij]
  · intro h hp hcase
    unfold extractJsonObject
    rw [if_neg h]
    dsimp only
    rw [hp]
    dsimp only
    rcases hcase with hi | hj | hno
    · rw [hi]
    · rw [hj]
      cases hi' : firstIdxOf (jsTrim text).toList (Char.ofNat 123) <;> rfl
    · cases hi' : firstIdxOf (jsTrim text).toList (Char.ofNat 123) with
      | none => rfl
      | some i =>
        cases hj' : lastIdxOf (jsTrim text).toList (Char.ofNat 125) with
        | none => rfl
        | some j =>
          dsimp only
          rw [if_neg (hno i j hi' hj')]
  · intro stringify body m r proc e hb hm htrim hlen hp he hex
    have hbind : (extractJsonObject parse r.stdout >>= validatePlan) =
        .error e := by
      rw [hex, except_bind_error]
    rw [POST_plan_error stringify parse body m r e proc hb hm htrim hlen hp
      he hbind]
  · intro stringify body m r proc hb hm htrim hlen hp he hempty
    have hex : extractJsonObject parse r.stdout = .ok .null := by
      unfold extractJsonObject
      rw [if_pos hempty]
    have hbind : (extractJsonObject parse r.stdout >>= validatePlan) =
        .error "Plan is not an object" := by
      rw [hex, except_bind_ok]
      rfl
    rw [POST_plan_error stringify parse body m r "Plan is not an object" proc
      hb hm htrim hlen hp he hbind]

/-- Witness for C8 at a concrete input. -/
theorem C8_extraction_witness :
    extractJsonObject (fun _ => none) "no json here" =
      .error "Could not parse JSON from output" :=
  (C8_extraction (fun _ => none) "no json here").2.2.2.1 (by decide) rfl
    (Or.inl rfl)
